import Mathlib

/-!
Formal model of the DRBD disk synchronization monitor
(`2-drbd-disk-moniter.py`): status-interface reading, state
classification, bounded transition history and the final plain-text
report, together with theorems about the classifier priorities, the
history invariants and the loop's termination condition.
-/

namespace Drbd

/-- Path of the kernel status interface (`PROC_FILE` in the source). -/
def PROC_FILE : String := "/proc/drbd"

/-- Capacity of the history ring (`MAX_HISTORY` in the source). -/
def MAX_HISTORY : Nat := 12

/-- Python substring test `pat in text`. -/
def containsSub (text pat : String) : Bool :=
  text.toList.tails.any (fun t => pat.toList.isPrefixOf t)

/-- Splitting a character list at every character satisfying `p`; the
pieces between separators are kept, including empty ones, exactly as
Python's `str.split(sep)` keeps them. -/
def splitPred (p : Char → Bool) : List Char → List (List Char)
  | [] => [[]]
  | x :: xs =>
    let r := splitPred p xs
    if p x then [] :: r
    else
      match r with
      | [] => [[x]]
      | y :: ys => (x :: y) :: ys

/-- Python `s.split(c)` for a one-character separator `c`. -/
def pySplitOnChar (c : Char) (s : String) : List String :=
  (splitPred (fun x => x = c) s.toList).map String.mk

/-- Python `str.split()` with no argument: split on whitespace, dropping
empty pieces. -/
def pySplit (s : String) : List String :=
  ((splitPred Char.isWhitespace s.toList).map String.mk).filter (fun t => t ≠ "")

/-- Python `str.rstrip()`: remove trailing whitespace. -/
def pyRstrip (s : String) : String :=
  String.mk ((s.toList.reverse.dropWhile Char.isWhitespace).reverse)

/-- Python `str.splitlines()` applied to a string without a trailing
newline (`read_drbd` strips trailing whitespace first). -/
def pySplitlines (s : String) : List String :=
  if s = "" then [] else pySplitOnChar '\n' s

/-- Python `sep.join(ls)` for the one-space separator used by
`detect_state`. -/
def joinSpace : List String → String
  | [] => ""
  | [x] => x
  | x :: xs => x ++ " " ++ joinSpace xs

/-- Python slice `l[-n:]`: the last `n` elements of the list. -/
def takeLast (n : Nat) (l : List α) : List α :=
  l.drop (l.length - n)

/-- Outcome of attempting to open and read the status interface: the
environment either yields the file's contents or raises, which is the
boundary `read_drbd` guards with its try/except. -/
inductive ReadOutcome where
  | success (content : String)
  | failure (errMsg : String)

/-- Model of `read_drbd`: on success `f.read().rstrip().splitlines()`;
on any open/read failure the synthetic two-line status. Total: every
outcome returns a list of lines, nothing propagates past this boundary. -/
def read_drbd : ReadOutcome → List String
  | ReadOutcome.success content => pySplitlines (pyRstrip content)
  | ReadOutcome.failure e =>
      ["ERROR: " ++ e, "Is DRBD loaded? Check " ++ PROC_FILE ++ " exists"]

/-- Inner double loop of `detect_state`'s SyncSource branch: scan the
lines in order; for the first line containing "resync:", return its
first whitespace token containing "resync:", falling through to later
lines when no token of that line matches. -/
def findResyncToken : List String → Option String
  | [] => none
  | line :: rest =>
    if containsSub line "resync:" then
      match (pySplit line).find? (fun part => containsSub part "resync:") with
      | some part => some part
      | none => findResyncToken rest
    else findResyncToken rest

/-- Model of `detect_state`: classify the joined text of all lines into
a (state, message) pair, first match wins. In the SyncSource branch the
progress is `part.split(':')[1]`; the index-1 element always exists
there because the token contains "resync:" and hence a colon, so the
`getD` default is unreachable. -/
def detect_state (lines : List String) : String × String :=
  let text := joinSpace lines
  if containsSub text "cs:WFConnection" then
    ("WAITING_SECONDARY", "🕒 Waiting for Secondary Node Disk")
  else if containsSub text "cs:SyncSource" then
    match findResyncToken lines with
    | some part => ("SYNCING", "🔄 Syncing disks: " ++ (pySplitOnChar ':' part).getD 1 "")
    | none => ("SYNCING", "🔄 Secondary node disk online, waiting for sync to complete")
  else if containsSub text "cs:Connected" && containsSub text "ds:UpToDate/UpToDate"
      && containsSub text "oos:0" then
    ("DONE", "✅ DRBD SYNC COMPLETE - Resources fully synchronized")
  else
    ("UNKNOWN", "❓ Unknown DRBD state")

/-- DashboardSnapshot: the dict stored into `last_screen_data` each tick
(keys `time`, `drbd_lines`, `message`, `history`). -/
structure Snapshot where
  time : String
  drbd_lines : List String
  message : String
  history : List (String × String)

/-- Loop lifecycle: `RUNNING` while polling, `STOPPED` once the loop
returns. -/
inductive LoopStatus where
  | RUNNING
  | STOPPED
deriving DecidableEq

/-- Mutable state carried across iterations of `main`'s while loop:
the history ring, the last recorded message, and the global
`last_screen_data` slot. -/
structure MonState where
  history : List (String × String)
  lastMessage : Option String
  last_screen_data : Option Snapshot

/-- State at entry of the loop: `history = []`, `last_message = None`,
`last_screen_data = None`. -/
def initState : MonState :=
  { history := [], lastMessage := none, last_screen_data := none }

/-- One iteration of `main`'s while loop on already-read status lines
and the formatted current time: classify, conditionally append to
history and trim to the last `MAX_HISTORY` entries, update
`last_screen_data` with the updated history, and report whether the
loop returns (`state == "DONE"`) or sleeps and continues. -/
def tick (s : MonState) (lines : List String) (now : String) : MonState × LoopStatus :=
  let sm := detect_state lines
  let message := sm.2
  let s1 :=
    if s.lastMessage ≠ some message then
      { s with
        history := takeLast MAX_HISTORY (s.history ++ [(now, message)]),
        lastMessage := some message }
    else s
  let s2 := { s1 with
              last_screen_data := some ⟨now, lines, message, s1.history⟩ }
  (s2, if sm.1 = "DONE" then LoopStatus.STOPPED else LoopStatus.RUNNING)

/-- Running the loop body over a whole sequence of (lines, time) ticks,
keeping the mutable state. -/
def runTicks (s : MonState) : List (List String × String) → MonState
  | [] => s
  | (lines, now) :: rest => runTicks (tick s lines now).1 rest

/-- Horizontal rule of `=` characters used by the final report. -/
def eqBar : String := String.mk (List.replicate 80 '=')

/-- Horizontal rule of `-` characters used by the final report. -/
def dashBar : String := String.mk (List.replicate 80 '-')

/-- Model of `render_final_screen`: the sequence of lines printed to
stdout after curses exit (a `print` of a string starting with `"\n"`
contributes an empty line followed by the rest). `none` models the
falsy `data` early return. -/
def render_final_screen : Option Snapshot → List String
  | none => []
  | some data =>
    ["", eqBar,
     "FINAL DRBD STATUS (captured at exit):",
     eqBar,
     "Timestamp: " ++ data.time,
     "", "CURRENT DRBD STATUS (/proc/drbd):"]
    ++ data.drbd_lines.take 8
    ++ ["", "LATEST STATUS MESSAGE:",
        data.message,
        "", "STATE CHANGE HISTORY:",
        dashBar]
    ++ (takeLast MAX_HISTORY data.history).map (fun e => "[" ++ e.1 ++ "] " ++ e.2)
    ++ [eqBar]

/-- Invariant maintained by the loop across ticks: the history is
bounded by `MAX_HISTORY`, adjacent history entries carry distinct
messages, and `lastMessage` mirrors the message of the newest history
entry. -/
def Inv (s : MonState) : Prop :=
  s.history.length ≤ MAX_HISTORY ∧
  s.history.Chain' (fun a b => a.2 ≠ b.2) ∧
  s.lastMessage = s.history.getLast?.map Prod.snd

/-- Status lines combining the source-side-syncing marker with the full
DONE predicate, used to exercise the classifier priority. -/
def w1lines : List String := ["cs:SyncSource cs:Connected ds:UpToDate/UpToDate oos:0"]

/-- Status lines combining the secondary-waiting marker with every
other marker, used to exercise first-match-wins. -/
def w2lines : List String :=
  ["cs:WFConnection cs:SyncSource cs:Connected ds:UpToDate/UpToDate oos:0"]

/-- Twelve ticks alternating between two distinct messages, filling the
history ring to capacity. -/
def w4inputs : List (List String × String) :=
  [([""], "t1"), (["cs:WFConnection"], "t2"),
   ([""], "t3"), (["cs:WFConnection"], "t4"),
   ([""], "t5"), (["cs:WFConnection"], "t6"),
   ([""], "t7"), (["cs:WFConnection"], "t8"),
   ([""], "t9"), (["cs:WFConnection"], "t10"),
   ([""], "t11"), (["cs:WFConnection"], "t12")]

/-- Status lines whose message differs from every message produced by
`w4inputs`, forcing a thirteenth insertion. -/
def w4lines : List String := ["cs:Connected ds:UpToDate/UpToDate oos:0"]

/-- Status-interface content of nine lines, one more than the final
report's raw-status pane prints. -/
def cexContent : String := "l1\nl2\nl3\nl4\nl5\nl6\nl7\nl8\nl9"

/-- DashboardSnapshot captured by a tick that read `cexContent`. -/
def cexCapture : Option Snapshot :=
  (tick initState (read_drbd (ReadOutcome.success cexContent)) "T").1.last_screen_data

/-- Small concrete snapshot for exercising the final report. -/
def w7data : Snapshot :=
  { time := "T7", drbd_lines := ["x1", "x2"], message := "m7",
    history := [("t1", "a"), ("t2", "b")] }

end Drbd

namespace Drbd

theorem length_takeLast (n : Nat) (l : List α) : (takeLast n l).length ≤ n := by
  simp only [takeLast, List.length_drop]
  omega

theorem length_takeLast_le_self (n : Nat) (l : List α) :
    (takeLast n l).length ≤ l.length := by
  simp only [takeLast, List.length_drop]
  omega

theorem takeLast_suffix (n : Nat) (l : List α) : takeLast n l <:+ l :=
  List.drop_suffix _ _

theorem takeLast_of_le (n : Nat) (l : List α) (h : l.length ≤ n) :
    takeLast n l = l := by
  unfold takeLast
  have hz : l.length - n = 0 := by omega
  simp [hz]

theorem takeLast_append_singleton (n : Nat) (hn : 1 ≤ n) (l : List α) (x : α) :
    takeLast n (l ++ [x]) = l.drop (l.length + 1 - n) ++ [x] := by
  unfold takeLast
  have hk : l.length + 1 - n ≤ l.length := by omega
  rw [List.length_append]
  simp only [List.length_singleton]
  rw [List.drop_append_eq_append_drop]
  have hz : l.length + 1 - n - l.length = 0 := by omega
  simp [hz]

theorem getLast?_takeLast_append (n : Nat) (hn : 1 ≤ n) (l : List α) (x : α) :
    (takeLast n (l ++ [x])).getLast? = some x := by
  rw [takeLast_append_singleton n hn l x]
  exact List.getLast?_concat _

theorem tick_history_char (s : MonState) (lines : List String) (now : String) :
    (tick s lines now).1.history
      = if s.lastMessage ≠ some (detect_state lines).2
        then takeLast MAX_HISTORY (s.history ++ [(now, (detect_state lines).2)])
        else s.history := by
  by_cases hc : s.lastMessage ≠ some (detect_state lines).2 <;> simp [tick, hc]

theorem tick_lastMessage (s : MonState) (lines : List String) (now : String) :
    (tick s lines now).1.lastMessage = some (detect_state lines).2 := by
  by_cases hc : s.lastMessage ≠ some (detect_state lines).2
  · simp [tick, hc]
  · push_neg at hc
    simp [tick, hc]

theorem initState_inv : Inv initState := by
  refine ⟨by simp [initState, MAX_HISTORY], by simp [initState], by simp [initState]⟩

theorem tick_preserves_inv {s : MonState} (lines : List String) (now : String)
    (h : Inv s) : Inv (tick s lines now).1 := by
  obtain ⟨hlen, hchain, hlast⟩ := h
  refine ⟨?_, ?_, ?_⟩
  · rw [tick_history_char]
    by_cases hc : s.lastMessage ≠ some (detect_state lines).2
    · rw [if_pos hc]
      exact length_takeLast _ _
    · rw [if_neg hc]
      exact hlen
  · rw [tick_history_char]
    by_cases hc : s.lastMessage ≠ some (detect_state lines).2
    · rw [if_pos hc]
      have hbig : (s.history ++ [(now, (detect_state lines).2)]).Chain'
          (fun a b => a.2 ≠ b.2) := by
        rw [List.chain'_append]
        refine ⟨hchain, List.chain'_singleton _, ?_⟩
        intro a ha b hb
        have hb' : (now, (detect_state lines).2) = b := by
          simpa using hb
        subst hb'
        have ha' : s.history.getLast? = some a := ha
        have : s.lastMessage = some a.2 := by
          rw [hlast, ha']
          rfl
        intro hcontra
        exact hc (by rw [this, hcontra])
      exact List.Chain'.suffix hbig (takeLast_suffix _ _)
    · rw [if_neg hc]
      exact hchain
  · rw [tick_history_char, tick_lastMessage]
    by_cases hc : s.lastMessage ≠ some (detect_state lines).2
    · rw [if_pos hc]
      rw [getLast?_takeLast_append MAX_HISTORY (by decide) _ _]
      rfl
    · rw [if_neg hc]
      push_neg at hc
      rw [← hlast, hc]

theorem runTicks_inv (inputs : List (List String × String)) (s : MonState)
    (h : Inv s) : Inv (runTicks s inputs) := by
  induction inputs generalizing s with
  | nil => exact h
  | cons p rest ih =>
    obtain ⟨lines, now⟩ := p
    exact ih _ (tick_preserves_inv lines now h)

/-- C1: whenever the joined status text contains "cs:SyncSource" but not
"cs:WFConnection", `detect_state` returns state SYNCING — even when the
DONE predicate (cs:Connected, ds:UpToDate/UpToDate, oos:0) holds
simultaneously, because the SYNCING marker is checked first. -/
theorem detect_state_syncSource_priority (lines : List String)
    (h1 : containsSub (joinSpace lines) "cs:SyncSource" = true)
    (h2 : containsSub (joinSpace lines) "cs:WFConnection" = false) :
    (detect_state lines).1 = "SYNCING" := by
  simp only [detect_state, h1, h2, Bool.false_eq_true, if_false, if_true]
  cases h : findResyncToken lines <;> simp

theorem detect_state_syncSource_priority_witness :
    containsSub (joinSpace w1lines) "cs:SyncSource" = true ∧
    containsSub (joinSpace w1lines) "cs:WFConnection" = false ∧
    containsSub (joinSpace w1lines) "cs:Connected" = true ∧
    containsSub (joinSpace w1lines) "ds:UpToDate/UpToDate" = true ∧
    containsSub (joinSpace w1lines) "oos:0" = true ∧
    (detect_state w1lines).1 = "SYNCING" :=
  ⟨by decide, by decide, by decide, by decide, by decide,
   detect_state_syncSource_priority w1lines (by decide) (by decide)⟩

/-- C2: whenever the joined status text contains "cs:WFConnection",
`detect_state` returns WAITING_SECONDARY with its fixed message,
regardless of any other marker text present (first match wins). -/
theorem detect_state_wfconnection_first (lines : List String)
    (h : containsSub (joinSpace lines) "cs:WFConnection" = true) :
    detect_state lines = ("WAITING_SECONDARY", "🕒 Waiting for Secondary Node Disk") := by
  simp only [detect_state, h, if_true]

theorem detect_state_wfconnection_first_witness :
    containsSub (joinSpace w2lines) "cs:WFConnection" = true ∧
    containsSub (joinSpace w2lines) "cs:SyncSource" = true ∧
    containsSub (joinSpace w2lines) "cs:Connected" = true ∧
    detect_state w2lines = ("WAITING_SECONDARY", "🕒 Waiting for Secondary Node Disk") :=
  ⟨by decide, by decide, by decide,
   detect_state_wfconnection_first w2lines (by decide)⟩

/-- C3: a tick of the monitor loop ends the loop (status STOPPED) exactly
when `detect_state` classifies the tick's lines as DONE; in every other
tick — including an UNKNOWN tick produced by a failed status read — the
loop keeps running. -/
theorem tick_stops_iff_done (s : MonState) (lines : List String) (now : String) :
    ((tick s lines now).2 = LoopStatus.STOPPED ↔ (detect_state lines).1 = "DONE") ∧
    (tick s (read_drbd (ReadOutcome.failure
        "[Errno 2] No such file or directory: /proc/drbd")) now).2
      = LoopStatus.RUNNING := by
  constructor
  · by_cases h : (detect_state lines).1 = "DONE" <;> simp [tick, h]
  · have h : (detect_state (read_drbd (ReadOutcome.failure
        "[Errno 2] No such file or directory: /proc/drbd"))).1 = "UNKNOWN" := by decide
    simp [tick, h]

/-- C4: starting from the initial state, after any sequence of ticks the
history holds at most `MAX_HISTORY` (12) entries, and a tick that would
insert beyond a full ring drops exactly the oldest entry, keeping the
survivors in FIFO order. -/
theorem history_bounded_and_fifo (inputs : List (List String × String))
    (lines : List String) (now : String) :
    (runTicks initState inputs).history.length ≤ MAX_HISTORY ∧
    ((runTicks initState inputs).lastMessage ≠ some (detect_state lines).2 →
     (runTicks initState inputs).history.length = MAX_HISTORY →
     (tick (runTicks initState inputs) lines now).1.history
       = (runTicks initState inputs).history.drop 1
           ++ [(now, (detect_state lines).2)]) := by
  refine ⟨(runTicks_inv inputs initState initState_inv).1, ?_⟩
  intro hne hfull
  rw [tick_history_char, if_pos hne,
      takeLast_append_singleton MAX_HISTORY (by decide) _ _, hfull]
  norm_num [MAX_HISTORY]

theorem history_bounded_and_fifo_witness :
    (runTicks initState w4inputs).history.length ≤ MAX_HISTORY ∧
    (runTicks initState w4inputs).lastMessage ≠ some (detect_state w4lines).2 ∧
    (runTicks initState w4inputs).history.length = MAX_HISTORY ∧
    (tick (runTicks initState w4inputs) w4lines "t13").1.history
      = (runTicks initState w4inputs).history.drop 1
          ++ [("t13", (detect_state w4lines).2)] :=
  ⟨(history_bounded_and_fifo w4inputs w4lines "t13").1,
   by decide, by decide,
   (history_bounded_and_fifo w4inputs w4lines "t13").2 (by decide) (by decide)⟩

/-- C5: starting from the initial state, after any sequence of ticks the
history never holds two consecutive entries with equal messages, and
`last_message` always mirrors the newest retained entry's message — an
entry is only appended when its message differs from the most recently
recorded one, and trimming old entries preserves the property. -/
theorem history_no_adjacent_duplicates (inputs : List (List String × String)) :
    (runTicks initState inputs).history.Chain' (fun a b => a.2 ≠ b.2) ∧
    (runTicks initState inputs).lastMessage
      = ((runTicks initState inputs).history.getLast?).map Prod.snd :=
  ⟨(runTicks_inv inputs initState initState_inv).2.1,
   (runTicks_inv inputs initState initState_inv).2.2⟩

/-- C9: a second consecutive tick on the same status lines leaves the
history exactly as the first tick left it, and the first tick itself
adds at most one entry. -/
theorem tick_idempotent_on_unchanged_status (s : MonState) (lines : List String)
    (now1 now2 : String) :
    (tick (tick s lines now1).1 lines now2).1.history
      = (tick s lines now1).1.history ∧
    (tick s lines now1).1.history.length ≤ s.history.length + 1 := by
  constructor
  · rw [tick_history_char]
    have h := tick_lastMessage s lines now1
    simp [h]
  · rw [tick_history_char]
    by_cases hc : s.lastMessage ≠ some (detect_state lines).2
    · rw [if_pos hc]
      have h1 := length_takeLast_le_self MAX_HISTORY
        (s.history ++ [(now1, (detect_state lines).2)])
      simpa using h1
    · rw [if_neg hc]
      omega

/-- C6 counterexample: on lines containing "cs:SyncSource" and the
segment "resync: 42%", the state is SYNCING but — contrary to the claim
— the returned message does not contain "42%": the whitespace token
holding "resync:" is the bare token, so the extracted progress is empty. -/
theorem scenarioB_message_lacks_percent :
    (detect_state ["cs:SyncSource", "resync: 42%"]).1 = "SYNCING" ∧
    containsSub (detect_state ["cs:SyncSource", "resync: 42%"]).2 "42%" = false ∧
    (detect_state ["cs:SyncSource", "resync: 42%"]).2 = "🔄 Syncing disks: " := by
  decide

/-- C6 amended: with "cs:SyncSource" present, "cs:WFConnection" absent,
and the first whitespace token containing "resync:" being the bare
token "resync:" (as with the segment "resync: 42%"), the state is
SYNCING and the message is exactly "🔄 Syncing disks: " with empty
progress — it does not contain "42%". -/
theorem syncing_bare_token_empty_progress (lines : List String)
    (h1 : containsSub (joinSpace lines) "cs:SyncSource" = true)
    (h2 : containsSub (joinSpace lines) "cs:WFConnection" = false)
    (h3 : findResyncToken lines = some "resync:") :
    detect_state lines = ("SYNCING", "🔄 Syncing disks: ") ∧
    containsSub (detect_state lines).2 "42%" = false := by
  have hd : detect_state lines
      = ("SYNCING", "🔄 Syncing disks: " ++ (pySplitOnChar ':' "resync:").getD 1 "") := by
    simp only [detect_state, h1, h2, Bool.false_eq_true, if_false, if_true, h3]
  rw [hd]
  decide

theorem syncing_bare_token_empty_progress_witness :
    containsSub (joinSpace ["cs:SyncSource", "resync: 42%"]) "cs:SyncSource" = true ∧
    containsSub (joinSpace ["cs:SyncSource", "resync: 42%"]) "cs:WFConnection" = false ∧
    findResyncToken ["cs:SyncSource", "resync: 42%"] = some "resync:" ∧
    (detect_state ["cs:SyncSource", "resync: 42%"]
        = ("SYNCING", "🔄 Syncing disks: ") ∧
     containsSub (detect_state ["cs:SyncSource", "resync: 42%"]).2 "42%" = false) :=
  ⟨by decide, by decide, by decide,
   syncing_bare_token_empty_progress ["cs:SyncSource", "resync: 42%"]
     (by decide) (by decide) (by decide)⟩

/-- C10: with "cs:SyncSource" present and "cs:WFConnection" absent, when
the scan finds a whitespace token containing "resync:", the message is
"🔄 Syncing disks: " followed by exactly the text between the first and
the second colon (or end) of that token — `part.split(':')[1]`. -/
theorem resync_progress_token_extraction (lines : List String) (part : String)
    (h1 : containsSub (joinSpace lines) "cs:SyncSource" = true)
    (h2 : containsSub (joinSpace lines) "cs:WFConnection" = false)
    (h3 : findResyncToken lines = some part) :
    detect_state lines
      = ("SYNCING", "🔄 Syncing disks: " ++ (pySplitOnChar ':' part).getD 1 "") := by
  simp only [detect_state, h1, h2, Bool.false_eq_true, if_false, if_true, h3]

theorem resync_progress_token_extraction_witness :
    containsSub (joinSpace ["cs:SyncSource", "sync resync:57% done"]) "cs:SyncSource" = true ∧
    containsSub (joinSpace ["cs:SyncSource", "sync resync:57% done"]) "cs:WFConnection" = false ∧
    findResyncToken ["cs:SyncSource", "sync resync:57% done"] = some "resync:57%" ∧
    (pySplitOnChar ':' "resync:57%").getD 1 "" = "57%" ∧
    detect_state ["cs:SyncSource", "sync resync:57% done"]
      = ("SYNCING", "🔄 Syncing disks: " ++ (pySplitOnChar ':' "resync:57%").getD 1 "") :=
  ⟨by decide, by decide, by decide, by decide,
   resync_progress_token_extraction ["cs:SyncSource", "sync resync:57% done"]
     "resync:57%" (by decide) (by decide) (by decide)⟩

/-- C7 counterexample: a DashboardSnapshot captured by a tick whose
status read produced nine lines; the ninth raw-status line does not
appear in the final plain-text report, because the report prints only
the first eight lines — the claim's "full raw status" fails. -/
theorem final_report_truncates_raw_status :
    (cexCapture.map Snapshot.drbd_lines)
      = some ["l1", "l2", "l3", "l4", "l5", "l6", "l7", "l8", "l9"] ∧
    "l9" ∉ render_final_screen cexCapture := by
  decide

/-- C7 amended: for every snapshot whose retained history holds at most
`MAX_HISTORY` entries (true of every captured snapshot), the final
report contains the first eight raw-status lines — not necessarily the
rest — and the entire retained history, oldest to newest, as a
contiguous block. -/
theorem final_report_contains_first8_and_history (data : Snapshot)
    (h : data.history.length ≤ MAX_HISTORY) :
    (∀ l ∈ data.drbd_lines.take 8, l ∈ render_final_screen (some data)) ∧
    data.history.map (fun e => "[" ++ e.1 ++ "] " ++ e.2)
      <:+: render_final_screen (some data) := by
  constructor
  · intro l hl
    simp only [render_final_screen, List.mem_append, List.mem_cons]
    tauto
  · refine ⟨["", eqBar, "FINAL DRBD STATUS (captured at exit):", eqBar,
      "Timestamp: " ++ data.time, "", "CURRENT DRBD STATUS (/proc/drbd):"]
      ++ data.drbd_lines.take 8
      ++ ["", "LATEST STATUS MESSAGE:", data.message, "", "STATE CHANGE HISTORY:",
          dashBar],
      [eqBar], ?_⟩
    simp only [render_final_screen]
    rw [takeLast_of_le _ _ h]

theorem final_report_contains_first8_witness :
    w7data.history.length ≤ MAX_HISTORY ∧
    "x1" ∈ render_final_screen (some w7data) ∧
    w7data.history.map (fun e => "[" ++ e.1 ++ "] " ++ e.2)
      <:+: render_final_screen (some w7data) :=
  ⟨by decide,
   (final_report_contains_first8_and_history w7data (by decide)).1 "x1" (by decide),
   (final_report_contains_first8_and_history w7data (by decide)).2⟩

/-- C8: the status reader is total over read outcomes, and on any
open/read failure it returns exactly the two-line synthetic status: an
error-description line carrying the error text, then a hint line naming
the expected interface path `/proc/drbd`. -/
theorem read_drbd_failure_shape (e : String) :
    read_drbd (ReadOutcome.failure e)
      = ["ERROR: " ++ e, "Is DRBD loaded? Check " ++ PROC_FILE ++ " exists"] ∧
    (read_drbd (ReadOutcome.failure e)).length = 2 ∧
    containsSub ("Is DRBD loaded? Check " ++ PROC_FILE ++ " exists") PROC_FILE = true :=
  ⟨rfl, rfl, by decide⟩

end Drbd
